import Mathlib

/-!
Verification of the CTAPred pipeline (`generate_CTA.py`, `predict_targets.py`,
`update_chembl_np.py`) via a shallow embedding in Lean 4.

Pure fragments of the Python scripts are translated into executable Lean
definitions; the main loops are modelled as explicit state-passing functions.
Functions that live in `SharedFunc.py` (which is not among the three
scripts) are modelled from the specification where a claim depends on them,
and each such definition is marked `Modelled from the spec:` in its doc
comment.
-/

namespace CTAPred

/-! ## Fingerprint parameter adjustment

Embedded from `generate_CTA.py` lines 82-85 and `predict_targets.py`
lines 85-88, which contain the identical statement sequence:

    if args.fingerprint in ['avalon', 'maccs']:
        args.radius = None
        if args.fingerprint == 'maccs':
            args.nBits = 116
-/

/-- The argument fields touched by the fingerprint adjustment in both entry
points: fingerprint scheme name, bit width, and optional Morgan radius. -/
structure FPArgs where
  fingerprint : String
  nBits : Nat
  radius : Option Nat
  deriving DecidableEq, Repr

/-- Embedded from the source: the post-parsing adjustment of `radius` and
`nBits` performed identically in `generate_CTA.main` and
`predict_targets.main`. -/
def adjust_fp_params (a : FPArgs) : FPArgs :=
  if a.fingerprint = "avalon" ∨ a.fingerprint = "maccs" then
    let a1 : FPArgs := { a with radius := none }
    if a1.fingerprint = "maccs" then { a1 with nBits := 116 } else a1
  else a

/-! ## Tanimoto/Jaccard similarity

Modelled from the spec: the similarity computation lives in
`SharedFunc.Query_conductSS`, which is not among the three source files.
The spec defines the score as |intersection of set bits| / |union of set
bits| over binary vectors; fingerprints are embedded as `List Bool`.
Division by zero in `ℚ` yields `0`, so two all-zero vectors score `0`. -/

/-- Number of positions set in both vectors (intersection of set bits). -/
def interCount (A B : List Bool) : Nat :=
  (List.zipWith (fun x y => x && y) A B).count true

/-- Number of positions set in at least one vector (union of set bits). -/
def unionCount (A B : List Bool) : Nat :=
  (List.zipWith (fun x y => x || y) A B).count true

/-- Modelled from the spec: Tanimoto/Jaccard similarity coefficient
|intersection| / |union| between two binary fingerprints. -/
def tanimoto (A B : List Bool) : ℚ :=
  (interCount A B : ℚ) / (unionCount A B : ℚ)

/-! ## Target Ranker

Modelled from the spec: `rankTargets` lives in `SharedFunc.py`, which is
not among the three source files. Section 4.4 of the spec prescribes: for
each query, take the k reference neighbours with highest similarity (ties
broken by the stable insertion order of the similarity table), group those
top-k rows by target, average the similarity within each group, and rank
targets by descending mean. -/

/-- One row of the sparse similarity table produced by the similarity
search: query id, target id and similarity score. -/
structure SimRow where
  np_id : String
  target_chembl_id : String
  score : ℚ
  deriving DecidableEq, Repr

/-- Stable insertion into a descending-sorted list: the new element goes
before the first element whose key is not larger, so existing elements
with an equal key keep their earlier positions relative to later input. -/
def insertDescBy {α : Type} (key : α → ℚ) (r : α) : List α → List α
  | [] => [r]
  | x :: xs => if key x ≤ key r then r :: x :: xs else x :: insertDescBy key r xs

/-- Stable descending sort by a rational key (insertion sort via foldr,
which preserves the input order among equal keys). -/
def sortDescBy {α : Type} (key : α → ℚ) (l : List α) : List α :=
  l.foldr (insertDescBy key) []

/-- Target ids in order of first appearance among the given rows. -/
def firstAppearanceTargets (rows : List SimRow) : List String :=
  rows.foldl
    (fun acc r =>
      if r.target_chembl_id ∈ acc then acc else acc ++ [r.target_chembl_id]) []

/-- Mean similarity score of the rows carrying target `t`. -/
def meanScoreFor (t : String) (rows : List SimRow) : ℚ :=
  ((rows.filter (fun r => r.target_chembl_id = t)).map SimRow.score).sum /
    (((rows.filter (fun r => r.target_chembl_id = t)).map SimRow.score).length : ℚ)

/-- Modelled from the spec: ranking for a single query. Keep the top-k
rows by descending score, group them by target, average the scores inside
each group, and list the targets by descending mean. -/
def rankTargetsForQuery (k : Nat) (rows : List SimRow) : List (String × ℚ) :=
  sortDescBy Prod.snd
    ((firstAppearanceTargets ((sortDescBy SimRow.score rows).take k)).map
      (fun t => (t, meanScoreFor t ((sortDescBy SimRow.score rows).take k))))

/-- Query ids in order of first appearance in the similarity table. -/
def firstAppearanceQueries (rows : List SimRow) : List String :=
  rows.foldl (fun acc r => if r.np_id ∈ acc then acc else acc ++ [r.np_id]) []

/-- Modelled from the spec: `rankTargets` applied to the whole similarity
table; each query's rows are ranked independently. -/
def rankTargets (k : Nat) (sim : List SimRow) : List (String × String × ℚ) :=
  (firstAppearanceQueries sim).flatMap
    (fun q =>
      (rankTargetsForQuery k (sim.filter (fun r => r.np_id = q))).map
        (fun p => (q, p.1, p.2)))

/-- The reference table of the spec scenario for the ranker: one query Q,
three reference neighbours with targets T1, T2, T1 and similarities
0.9, 0.8, 0.7 in insertion order. -/
def scenarioSim : List SimRow :=
  [⟨"Q", "T1", 9/10⟩, ⟨"Q", "T2", 8/10⟩, ⟨"Q", "T1", 7/10⟩]

/-! ## CTA reference table preparation in the prediction run

Embedded from `predict_targets.py` lines 93-97:

    CTA = CTA[['molregno', 'clean_smiles', 'uniprot', 'target_chembl_id']]
              .drop_duplicates(ignore_index=True)
    CTA.dropna(inplace=True)
    CTA_fps = gen_fps(log, args, CTA[['molregno', 'clean_smiles']],
                      'Reference').drop_duplicates(ignore_index=True)
    CTA = pd.merge(CTA, CTA_fps, on='molregno', how='inner')
    CTA.dropna(inplace=True)

`select_CTA_reference_dataset` and `gen_fps` live in `SharedFunc.py`
(not among the three scripts), so the incoming frame is left arbitrary and
`gen_fps` is abstracted by a per-structure fingerprint function. A missing
value (pandas NaN) is embedded as `Option.none`. -/

/-- A row of the CTA frame after column selection: the four selected
columns, each possibly missing. -/
structure CTARow where
  molregno : Option Nat
  clean_smiles : Option String
  uniprot : Option String
  target_chembl_id : Option String
  deriving DecidableEq, Repr

/-- A row of the fingerprint frame returned by `gen_fps`. -/
structure FpRow where
  molregno : Option Nat
  fp : Option (List Bool)
  deriving DecidableEq, Repr

/-- A row of the merged frame consumed by the similarity search. -/
structure FullRow where
  molregno : Option Nat
  clean_smiles : Option String
  uniprot : Option String
  target_chembl_id : Option String
  fp : Option (List Bool)
  deriving DecidableEq, Repr

/-- pandas `drop_duplicates` (keep='first') with an accumulator of the
rows already seen. -/
def dropDupAux {α : Type} [DecidableEq α] (seen : List α) : List α → List α
  | [] => []
  | x :: xs => if x ∈ seen then dropDupAux seen xs else x :: dropDupAux (x :: seen) xs

/-- pandas `drop_duplicates` (keep='first'): remove later duplicates of
whole rows, keeping first occurrences in order. -/
def dropDuplicates {α : Type} [DecidableEq α] (l : List α) : List α :=
  dropDupAux [] l

/-- pandas `dropna` keeps a row only when every field is present. -/
def ctaRowComplete (r : CTARow) : Bool :=
  r.molregno.isSome && r.clean_smiles.isSome && r.uniprot.isSome &&
    r.target_chembl_id.isSome

/-- `dropna` on the merged frame: every field, including the fingerprint,
is present. -/
def fullRowComplete (r : FullRow) : Bool :=
  r.molregno.isSome && r.clean_smiles.isSome && r.uniprot.isSome &&
    r.target_chembl_id.isSome && r.fp.isSome

/-- A merged row: the four CTA columns joined with the fingerprint column. -/
def mkFullRow (r : CTARow) (f : FpRow) : FullRow :=
  ⟨r.molregno, r.clean_smiles, r.uniprot, r.target_chembl_id, f.fp⟩

/-- `gen_fps` abstracted: one fingerprint row per input row, the
fingerprint computed from the clean structure by `fpFun` (deterministic,
as the spec requires of the Fingerprint Generator). -/
def gen_fps (fpFun : String → Option (List Bool)) (rows : List CTARow) : List FpRow :=
  rows.map (fun r => ⟨r.molregno, r.clean_smiles.bind fpFun⟩)

/-- pandas `pd.merge(..., on='molregno', how='inner')`: every pair of a
left row and a right row agreeing on the key, in nested-loop order. -/
def mergeOnMolregno (left : List CTARow) (right : List FpRow) : List FullRow :=
  left.flatMap
    (fun r => (right.filter (fun f => f.molregno = r.molregno)).map (mkFullRow r))

/-- The CTA frame after column selection, deduplication and dropna
(lines 93-94). -/
def ctaCleaned (raw : List CTARow) : List CTARow :=
  (dropDuplicates raw).filter ctaRowComplete

/-- The whole reference-table preparation of `predict_targets.main`
(lines 93-97): dedup, dropna, fingerprints, dedup, inner merge, dropna. -/
def ctaPipeline (fpFun : String → Option (List Bool)) (raw : List CTARow) :
    List FullRow :=
  (mergeOnMolregno (ctaCleaned raw)
      (dropDuplicates (gen_fps fpFun (ctaCleaned raw)))).filter fullRowComplete

/-- The (compound_id, target_id) key pair of a merged row. -/
def keyPair (r : FullRow) : Option Nat × Option String :=
  (r.molregno, r.target_chembl_id)

/-! ## The query-list loop of predict_targets.main

Embedded from `predict_targets.py` lines 101-134. For each dataset name
the loop checks that `<name>_smiles.csv` exists; when the file is absent
it prints an error message and executes `break`, leaving every remaining
name unprocessed. Otherwise it reads the query file, preprocesses the
SMILES, generates query fingerprints and runs the similarity search
against the CTA frame (`preprocess_Query_SMILES`, `gen_fps` and
`Query_conductSS` live in `SharedFunc.py` and are abstracted by `step`,
a function of the CTA frame and the query data only). When the resulting
similarity table is non-empty, `rankTargets` writes the output file for
that list; when it is empty the `if len(ChEMBL_similarity) > 0` guard
skips output creation and the loop moves to the next list. The loop body
never assigns to the CTA frame; the embedding threads the frame through
the recursion so that this read-only behaviour is a provable property of
the final state. -/

/-- What the loop body does for one processed query list: either
`rankTargets` ran on a non-empty similarity table and the output file for
the list was written, or the table was empty and nothing was written. -/
inductive LoopOutcome where
  | wrote (sim : List SimRow)
  | skippedEmpty
  deriving DecidableEq, Repr

/-- The `if len(ChEMBL_similarity) > 0` guard of lines 124-131. -/
def loopEntry (sim : List SimRow) : LoopOutcome :=
  if 0 < sim.length then LoopOutcome.wrote sim else LoopOutcome.skippedEmpty

/-- The loop over `args.datNames` (lines 101-134): returns the processed
lists with their outcomes, in order, together with the final CTA frame. -/
def processQueryLists {C Q : Type} (step : C → Q → List SimRow)
    (fileOK : String → Bool) (readQuery : String → Q) :
    C → List String → List (String × LoopOutcome) × C
  | CTA, [] => ([], CTA)
  | CTA, n :: rest =>
    if fileOK (n ++ "_smiles.csv") then
      ((n, loopEntry (step CTA (readQuery n))) ::
          (processQueryLists step fileOK readQuery CTA rest).1,
        (processQueryLists step fileOK readQuery CTA rest).2)
    else ([], CTA)

/-! ## Argument-range validation

The validators `int_range` and `float_range` referenced by
`generate_CTA.parse_args` (lines 31-41) and `predict_targets.parse_args`
(line 38) live in `SharedFunc.py`, which is not among the three scripts;
they are modelled from the spec's configuration surface: nBits in
[8,2048], Tc in [0.1,1.0], standard_value in [0.01,10000] nM. A failing
argparse type callable makes the process print a descriptive error and
exit with status 2 before `main`'s body runs. -/

/-- Modelled from the spec: the argparse type callable produced by
int_range(lo, hi) accepts an integer iff it lies in [lo, hi]. -/
def int_range (lo hi v : Int) : Except String Int :=
  if lo ≤ v ∧ v ≤ hi then Except.ok v
  else Except.error ("value out of range [" ++ toString lo ++ ", " ++ toString hi ++ "]")

/-- Modelled from the spec: the argparse type callable produced by
float_range(lo, hi) accepts a number iff it lies in [lo, hi]. -/
def float_range (lo hi v : ℚ) : Except String ℚ :=
  if lo ≤ v ∧ v ≤ hi then Except.ok v
  else Except.error "value out of range"

/-- The range-validated options of `generate_CTA.parse_args`. -/
structure GenCTAArgs where
  standard_value : ℚ
  Tc : ℚ
  nBits : Int
  deriving DecidableEq, Repr

/-- Embedded from `generate_CTA.parse_args` (lines 29-57): the
range-validated options; a validator failure is an argparse argument
error, which exits the process with status 2 and the validator's
message. -/
def generate_parse_args (sv Tc : ℚ) (nBits : Int) :
    Except (Nat × String) GenCTAArgs :=
  match float_range (1/100) 10000 sv with
  | Except.error e => Except.error (2, e)
  | Except.ok s =>
    match float_range (1/10) 1 Tc with
    | Except.error e => Except.error (2, e)
    | Except.ok t =>
      match int_range 8 2048 nBits with
      | Except.error e => Except.error (2, e)
      | Except.ok n => Except.ok ⟨s, t, n⟩

/-- The processing performed by `generate_CTA.main` after parsing. -/
inductive GenRunResult where
  | createdCTA (a : GenCTAArgs)
  deriving DecidableEq, Repr

/-- Embedded from `generate_CTA.main` (lines 60-89): `parse_args` runs
first; only on success does the script reach `createCTA`, so a rejected
configuration exits before any data processing. -/
def generate_CTA_run (sv Tc : ℚ) (nBits : Int) :
    Except (Nat × String) GenRunResult :=
  match generate_parse_args sv Tc nBits with
  | Except.ok a => Except.ok (GenRunResult.createdCTA a)
  | Except.error e => Except.error e

/-- Embedded from `predict_targets.parse_args` (lines 32-60): nBits is
its one range-validated option, checked with the same
int_range(8, 2048); a validator failure exits with status 2. -/
def predict_parse_args (nBits : Int) : Except (Nat × String) Int :=
  match int_range 8 2048 nBits with
  | Except.error e => Except.error (2, e)
  | Except.ok n => Except.ok n

/-- The processing performed by `predict_targets.main` after parsing. -/
inductive PredictRunResult where
  | ranPrediction (nBits : Int)
  deriving DecidableEq, Repr

/-- Embedded from `predict_targets.main` (lines 63-137): `parse_args`
runs first; only on success does the script reach the reference-set and
query-list processing, so a rejected configuration exits before any data
processing. -/
def predict_targets_run (nBits : Int) : Except (Nat × String) PredictRunResult :=
  match predict_parse_args nBits with
  | Except.ok n => Except.ok (PredictRunResult.ranPrediction n)
  | Except.error e => Except.error e

/-! ## The main block of update_chembl_np.py

Embedded from `update_chembl_np.py` lines 50-68 (`parse_args`) and
70-112 (the `__main__` block). The parser declares exactly five options
(`ChEMBL_data`, `NPs_data`, `ChEMBL`, `NPs`, `destination`) and no
`verbose` option, yet line 107 evaluates `args.verbose` as an argument of
`refine_NPs_data`; in Python the attribute lookup happens before the
call. The namespace is modelled as an attribute table so that the lookup
failure is derived, not stipulated. -/

/-- The argparse namespace fields of `update_chembl_np.parse_args`. -/
structure UpdateArgs where
  ChEMBL_dataPath : Option String
  NPs_dataPath : Option String
  ChEMBL : Bool
  NPs : Bool
  destinationPath : String
  deriving DecidableEq, Repr

/-- A Python attribute value stored in the parsed namespace. -/
inductive PyVal where
  | vStr (s : Option String)
  | vBool (b : Bool)
  deriving DecidableEq, Repr

/-- The attribute table of the namespace returned by `parse_args`:
exactly the five options declared in lines 53-66. -/
def parsed_fields (a : UpdateArgs) : List (String × PyVal) :=
  [("ChEMBL_dataPath", PyVal.vStr a.ChEMBL_dataPath),
   ("NPs_dataPath", PyVal.vStr a.NPs_dataPath),
   ("ChEMBL", PyVal.vBool a.ChEMBL),
   ("NPs", PyVal.vBool a.NPs),
   ("destinationPath", PyVal.vStr (some a.destinationPath))]

/-- Python attribute lookup on a namespace: a missing attribute raises
AttributeError. -/
def getattr (ns : List (String × PyVal)) (name : String) : Except String PyVal :=
  match ns.find? (fun p => p.1 = name) with
  | some p => Except.ok p.2
  | none => Except.error ("AttributeError: no attribute " ++ name)

/-- The observable actions of the `__main__` block. -/
inductive UpdateAction where
  | initCTA
  | setChEMBLFirst
  | promptChEMBLPath
  | refineNPs
  | promptNPsPath
  | logEnd
  deriving DecidableEq, Repr

/-- Embedded from the `__main__` block (lines 90-112): the actions the
script performs in order, and the uncaught exception ending it, if any.
`initialize_CTA_files` runs iff `CTA_meta.parquet` is absent (lines
92-94); the ChEMBL branch (97-102) and the NPs branch (105-109) follow;
in the NPs branch with a data path, the `args.verbose` lookup of line 107
is evaluated before `refine_NPs_data` can be called. -/
def update_main (a : UpdateArgs) (metaExists : Bool) :
    List UpdateAction × Option String :=
  let initActs := if metaExists then [] else [UpdateAction.initCTA]
  let chemblActs :=
    if a.ChEMBL then
      if a.ChEMBL_dataPath.isSome then [UpdateAction.setChEMBLFirst]
      else [UpdateAction.promptChEMBLPath]
    else []
  if a.NPs then
    if a.NPs_dataPath.isSome then
      match getattr (parsed_fields a) "verbose" with
      | Except.ok _ =>
        (initActs ++ chemblActs ++ [UpdateAction.refineNPs, UpdateAction.logEnd],
          none)
      | Except.error e => (initActs ++ chemblActs, some e)
    else
      (initActs ++ chemblActs ++ [UpdateAction.promptNPsPath, UpdateAction.logEnd],
        none)
  else (initActs ++ chemblActs ++ [UpdateAction.logEnd], none)

end CTAPred

namespace CTAPred

theorem zipWith_comm_of_comm {f : Bool → Bool → Bool}
    (hf : ∀ x y, f x y = f y x) (A B : List Bool) :
    List.zipWith f A B = List.zipWith f B A := by
  induction A generalizing B with
  | nil => cases B <;> simp
  | cons a as ih =>
    cases B with
    | nil => simp
    | cons b bs => simp [List.zipWith, hf a b, ih]

theorem interCount_comm (A B : List Bool) : interCount A B = interCount B A := by
  unfold interCount
  rw [zipWith_comm_of_comm Bool.and_comm]

theorem unionCount_comm (A B : List Bool) : unionCount A B = unionCount B A := by
  unfold unionCount
  rw [zipWith_comm_of_comm Bool.or_comm]

theorem zipWith_self_idem {f : Bool → Bool → Bool} (hf : ∀ x, f x x = x)
    (A : List Bool) : List.zipWith f A A = A := by
  induction A with
  | nil => rfl
  | cons a as ih =>
    show f a a :: List.zipWith f as as = a :: as
    rw [hf a, ih]

theorem interCount_self (A : List Bool) : interCount A A = A.count true := by
  unfold interCount
  rw [zipWith_self_idem (fun x => by cases x <;> rfl)]

theorem unionCount_self (A : List Bool) : unionCount A A = A.count true := by
  unfold unionCount
  rw [zipWith_self_idem (fun x => by cases x <;> rfl)]

/-- C2: After argument handling in both entry points, requesting the maccs
scheme forces nBits to 116 and radius to none regardless of the supplied
values, while requesting avalon forces radius to none and keeps the
supplied nBits. -/
theorem maccs_avalon_param_override (n : Nat) (r : Option Nat) :
    adjust_fp_params ⟨"maccs", n, r⟩ = ⟨"maccs", 116, none⟩ ∧
    adjust_fp_params ⟨"avalon", n, r⟩ = ⟨"avalon", n, none⟩ := by
  constructor <;> simp [adjust_fp_params]

/-- C4 counterexample: the all-zero fingerprint has self-similarity
0, not 1.0, because both the intersection and the union of set bits are
empty, so the claimed identity score(A,A) = 1.0 fails for it. -/
theorem tanimoto_self_zero_counterexample :
    tanimoto (List.replicate 8 false) (List.replicate 8 false) ≠ 1 := by
  have h1 : interCount (List.replicate 8 false) (List.replicate 8 false) = 0 := by
    decide
  have h2 : unionCount (List.replicate 8 false) (List.replicate 8 false) = 0 := by
    decide
  rw [tanimoto, h1, h2]
  norm_num

/-- C4 (amended): for every fingerprint A with at least one set bit, the
self-similarity score of A equals 1.0, and the score is symmetric for
every pair of fingerprints B and C, including all-zero ones. -/
theorem tanimoto_self_one_and_symm (A B C : List Bool) (h : true ∈ A) :
    tanimoto A A = 1 ∧ tanimoto B C = tanimoto C B := by
  constructor
  · unfold tanimoto
    rw [interCount_self, unionCount_self]
    have hpos : 0 < A.count true := List.count_pos_iff.mpr h
    have : (A.count true : ℚ) ≠ 0 := by
      exact_mod_cast Nat.pos_iff_ne_zero.mp hpos
    field_simp
  · unfold tanimoto
    rw [interCount_comm, unionCount_comm]

/-- C4 witness: the amended statement at the concrete fingerprints
[true, false] (self-similarity) and the pair [false, true], [true, true]
(symmetry). -/
theorem tanimoto_self_one_and_symm_witness :
    tanimoto [true, false] [true, false] = 1 ∧
    tanimoto [false, true] [true, true] = tanimoto [true, true] [false, true] :=
  tanimoto_self_one_and_symm [true, false] [false, true] [true, true] (by decide)

/-- C3: on the scenario table (targets T1, T2, T1 with similarities
0.9, 0.8, 0.7), ranking with top_k = 2 yields T1 first with mean 0.9 and
T2 second with mean 0.8; the third neighbour (T1, 0.7) is outside the
top-2 and does not lower T1's mean. -/
theorem ranker_top2_scenario :
    rankTargets 2 scenarioSim = [("Q", "T1", 9/10), ("Q", "T2", 8/10)] := by
  have hq : firstAppearanceQueries scenarioSim = ["Q"] := by
    simp [firstAppearanceQueries, scenarioSim]
  have hfilter : scenarioSim.filter (fun r => r.np_id = "Q") = scenarioSim := by
    simp [scenarioSim]
  have hsort : (sortDescBy SimRow.score scenarioSim).take 2 =
      [⟨"Q", "T1", 9/10⟩, ⟨"Q", "T2", 8/10⟩] := by
    norm_num [sortDescBy, insertDescBy, scenarioSim]
  have hts : firstAppearanceTargets [⟨"Q", "T1", 9/10⟩, ⟨"Q", "T2", 8/10⟩] =
      ["T1", "T2"] := by
    simp [firstAppearanceTargets]
  have hm1 : meanScoreFor "T1" [⟨"Q", "T1", 9/10⟩, ⟨"Q", "T2", 8/10⟩] = 9/10 := by
    rw [meanScoreFor]
    simp [List.filter_cons, List.filter_nil]
  have hm2 : meanScoreFor "T2" [⟨"Q", "T1", 9/10⟩, ⟨"Q", "T2", 8/10⟩] = 8/10 := by
    rw [meanScoreFor]
    simp [List.filter_cons, List.filter_nil]
  have hrank : rankTargetsForQuery 2 scenarioSim = [("T1", 9/10), ("T2", 8/10)] := by
    rw [rankTargetsForQuery, hsort, hts]
    simp only [List.map]
    rw [hm1, hm2]
    norm_num [sortDescBy, insertDescBy]
  rw [rankTargets, hq]
  simp only [List.flatMap_cons, List.flatMap_nil, List.append_nil]
  rw [hfilter, hrank]
  simp

theorem not_mem_seen_of_mem_dropDupAux {α : Type} [DecidableEq α]
    (l : List α) : ∀ seen y, y ∈ dropDupAux seen l → y ∉ seen := by
  induction l with
  | nil =>
    intro seen y h
    simp [dropDupAux] at h
  | cons x xs ih =>
    intro seen y h
    rw [dropDupAux] at h
    by_cases hx : x ∈ seen
    · rw [if_pos hx] at h
      exact ih seen y h
    · rw [if_neg hx] at h
      rcases List.mem_cons.mp h with rfl | h2
      · exact hx
      · intro hy
        exact ih (x :: seen) y h2 (List.mem_cons_of_mem x hy)

theorem dropDupAux_nodup {α : Type} [DecidableEq α] (l : List α) :
    ∀ seen, (dropDupAux seen l).Nodup := by
  induction l with
  | nil =>
    intro seen
    simp [dropDupAux]
  | cons x xs ih =>
    intro seen
    rw [dropDupAux]
    by_cases hx : x ∈ seen
    · rw [if_pos hx]
      exact ih seen
    · rw [if_neg hx]
      refine List.nodup_cons.mpr ⟨?_, ih (x :: seen)⟩
      intro hmem
      exact not_mem_seen_of_mem_dropDupAux xs (x :: seen) x hmem
        (List.mem_cons_self x seen)

theorem dropDuplicates_nodup {α : Type} [DecidableEq α] (l : List α) :
    (dropDuplicates l).Nodup :=
  dropDupAux_nodup l []

theorem mkFullRow_left_inj {a b : CTARow} {f g : FpRow}
    (h : mkFullRow a f = mkFullRow b g) : a = b ∧ f.fp = g.fp := by
  cases a; cases b; cases f; cases g
  simp only [mkFullRow, FullRow.mk.injEq] at h
  simp only [CTARow.mk.injEq]
  exact ⟨⟨h.1, h.2.1, h.2.2.1, h.2.2.2.1⟩, h.2.2.2.2⟩

theorem mergeOnMolregno_nodup (left : List CTARow) (right : List FpRow)
    (hl : left.Nodup) (hr : right.Nodup) : (mergeOnMolregno left right).Nodup := by
  rw [mergeOnMolregno]
  refine List.nodup_flatMap.mpr ⟨?_, ?_⟩
  · intro r _
    refine List.Nodup.map_on ?_ (hr.filter _)
    intro f hf g hg hfg
    have hf2 : f.molregno = r.molregno := by
      have := (List.mem_filter.mp hf).2
      simpa using this
    have hg2 : g.molregno = r.molregno := by
      have := (List.mem_filter.mp hg).2
      simpa using this
    have hfp := (mkFullRow_left_inj hfg).2
    cases f; cases g
    simp only [FpRow.mk.injEq]
    simp only at hf2 hg2 hfp
    exact ⟨hf2.trans hg2.symm, hfp⟩
  · refine hl.imp ?_
    intro a b hab z hza hzb
    rcases List.mem_map.mp hza with ⟨f, _, rfl⟩
    rcases List.mem_map.mp hzb with ⟨g, _, hz⟩
    exact hab (mkFullRow_left_inj hz.symm).1

/-- C5 counterexample: two distinct raw rows sharing the same
(molregno, target_chembl_id) pair but differing in uniprot both survive
the pipeline, so the reference table consumed by the similarity search
can contain a duplicate (compound_id, target_id) pair. -/
theorem cta_pair_uniqueness_counterexample :
    ¬ (((ctaPipeline (fun _ => some [true])
        [⟨some 1, some "s", some "u1", some "t1"⟩,
         ⟨some 1, some "s", some "u2", some "t1"⟩]).map keyPair).Nodup) := by
  decide

/-- C5 (amended): for every input frame and fingerprint function, the
reference table consumed by the similarity search contains no duplicate
whole row and no row with a missing field; in particular every
fingerprint entering the similarity search is non-null. Distinct rows
sharing the same (compound_id, target_id) pair may both remain. -/
theorem cta_reference_nodup_rows_and_no_nulls
    (fpFun : String → Option (List Bool)) (raw : List CTARow) :
    (ctaPipeline fpFun raw).Nodup ∧
    ∀ r ∈ ctaPipeline fpFun raw, fullRowComplete r = true := by
  constructor
  · exact (mergeOnMolregno_nodup _ _
      ((dropDuplicates_nodup raw).filter _)
      (dropDuplicates_nodup _)).filter _
  · intro r hr
    exact (List.mem_filter.mp hr).2

theorem processQueryLists_eq_map_of_all_files {C Q : Type}
    (step : C → Q → List SimRow) (fileOK : String → Bool)
    (readQuery : String → Q) (CTA : C) (names : List String)
    (h : ∀ n ∈ names, fileOK (n ++ "_smiles.csv") = true) :
    processQueryLists step fileOK readQuery CTA names =
      (names.map (fun n => (n, loopEntry (step CTA (readQuery n)))), CTA) := by
  induction names with
  | nil => rfl
  | cons n rest ih =>
    have hn := h n (List.mem_cons_self n rest)
    rw [processQueryLists, if_pos hn,
      ih (fun m hm => h m (List.mem_cons_of_mem n hm))]
    simp

/-- C9: during a prediction run in which every requested query file
exists, processing the query lists leaves the CTA reference frame
unchanged, and every list's outcome is computed from the reference frame
and that list's own input file alone. -/
theorem cta_read_only_and_output_local {C Q : Type}
    (step : C → Q → List SimRow) (fileOK : String → Bool)
    (readQuery : String → Q) (CTA : C) (names : List String)
    (h : ∀ n ∈ names, fileOK (n ++ "_smiles.csv") = true) :
    (processQueryLists step fileOK readQuery CTA names).2 = CTA ∧
    (processQueryLists step fileOK readQuery CTA names).1 =
      names.map (fun n => (n, loopEntry (step CTA (readQuery n)))) := by
  rw [processQueryLists_eq_map_of_all_files step fileOK readQuery CTA names h]
  exact ⟨rfl, rfl⟩

/-- C9 witness: the read-only property at a concrete reference frame,
query list and similarity function. -/
theorem cta_read_only_and_output_local_witness :
    (processQueryLists (fun (_ : Nat) (_ : Unit) => [⟨"Q", "T1", 1⟩])
        (fun _ => true) (fun _ => ()) 7 ["QueryList1"]).2 = 7 ∧
    (processQueryLists (fun (_ : Nat) (_ : Unit) => [⟨"Q", "T1", 1⟩])
        (fun _ => true) (fun _ => ()) 7 ["QueryList1"]).1 =
      ["QueryList1"].map (fun n => (n, loopEntry [⟨"Q", "T1", 1⟩])) :=
  cta_read_only_and_output_local (fun _ _ => [⟨"Q", "T1", 1⟩])
    (fun _ => true) (fun _ => ()) 7 ["QueryList1"] (by simp)

/-- C6: when every requested query file exists and a query list's
similarity search returns zero pairs, that list produces no output file
(its outcome is the skip branch of the emptiness guard) and every
requested list, including those after it, is still processed. -/
theorem empty_similarity_skips_output_and_continues {C Q : Type}
    (step : C → Q → List SimRow) (fileOK : String → Bool)
    (readQuery : String → Q) (CTA : C) (names : List String) (n : String)
    (hfiles : ∀ m ∈ names, fileOK (m ++ "_smiles.csv") = true)
    (hn : n ∈ names) (hempty : step CTA (readQuery n) = []) :
    (n, LoopOutcome.skippedEmpty) ∈
      (processQueryLists step fileOK readQuery CTA names).1 ∧
    (processQueryLists step fileOK readQuery CTA names).1.map Prod.fst = names := by
  rw [processQueryLists_eq_map_of_all_files step fileOK readQuery CTA names hfiles]
  constructor
  · refine List.mem_map.mpr ⟨n, hn, ?_⟩
    rw [hempty]
    rfl
  · simp only [List.map_map]
    have hc : (Prod.fst ∘ fun m => (m, loopEntry (step CTA (readQuery m)))) =
        (id : String → String) := rfl
    rw [hc, List.map_id]

/-- C6 witness: a run over two query lists in which the second list's
similarity search is empty; it is skipped without an output file and both
lists are processed. -/
theorem empty_similarity_skips_output_and_continues_witness :
    ("QueryList2", LoopOutcome.skippedEmpty) ∈
      (processQueryLists
        (fun (_ : Unit) (q : String) =>
          if q = "QueryList2" then [] else [⟨"Q", "T1", 1⟩])
        (fun _ => true) (fun s => s) () ["QueryList1", "QueryList2"]).1 ∧
    (processQueryLists
        (fun (_ : Unit) (q : String) =>
          if q = "QueryList2" then [] else [⟨"Q", "T1", 1⟩])
        (fun _ => true) (fun s => s) () ["QueryList1", "QueryList2"]).1.map
      Prod.fst = ["QueryList1", "QueryList2"] :=
  empty_similarity_skips_output_and_continues _ _ _ () _ "QueryList2"
    (by simp) (by simp) (by simp)

/-- C1: evaluating the loop at the failing input — three requested query
lists where QueryList2's file is absent and the other two exist — shows
that the `break` on the missing file stops the run: only QueryList1 is
processed, and QueryList3 produces no output, contradicting the claim
that processing continues with the remaining query lists. -/
theorem missing_file_break_eval :
    (processQueryLists (fun (_ : Unit) (_ : Unit) => [⟨"Q", "T1", 1⟩])
        (fun s => !(s = "QueryList2_smiles.csv")) (fun _ => ()) ()
        ["QueryList1", "QueryList2", "QueryList3"]).1.map Prod.fst =
      ["QueryList1"] := by
  simp [processQueryLists, loopEntry]

theorem int_range_error_out {lo hi v : Int} (h : v < lo ∨ hi < v) :
    int_range lo hi v =
      Except.error
        ("value out of range [" ++ toString lo ++ ", " ++ toString hi ++ "]") := by
  rw [int_range, if_neg]
  rcases h with h | h
  · exact fun hc => absurd hc.1 (not_le.mpr h)
  · exact fun hc => absurd hc.2 (not_le.mpr h)

theorem float_range_error_out {lo hi v : ℚ} (h : v < lo ∨ hi < v) :
    float_range lo hi v = Except.error "value out of range" := by
  rw [float_range, if_neg]
  rcases h with h | h
  · exact fun hc => absurd hc.1 (not_le.mpr h)
  · exact fun hc => absurd hc.2 (not_le.mpr h)

/-- C8: every invocation of either entry point with an out-of-range
parameter — for generate_CTA an out-of-range nBits, Tc or
standard_value, for predict_targets an out-of-range nBits — is rejected
by the validators at the argument-parsing boundary: the run exits with
status 2 (non-zero) and a descriptive message, before any data
processing begins. -/
theorem config_out_of_range_rejected (sv Tc : ℚ) (nBits nBitsP : Int)
    (h : (nBits < 8 ∨ 2048 < nBits) ∨ (Tc < 1/10 ∨ 1 < Tc) ∨
      (sv < 1/100 ∨ 10000 < sv))
    (hP : nBitsP < 8 ∨ 2048 < nBitsP) :
    (∃ msg, generate_CTA_run sv Tc nBits = Except.error (2, msg) ∧ (2 : Nat) ≠ 0) ∧
    (∃ msg, predict_targets_run nBitsP = Except.error (2, msg) ∧ (2 : Nat) ≠ 0) := by
  constructor
  · have hp : ∃ msg, generate_parse_args sv Tc nBits = Except.error (2, msg) := by
      rcases h with h | h | h
      · cases hsv : float_range (1/100) 10000 sv with
        | error e =>
          exact ⟨e, by rw [generate_parse_args, hsv]⟩
        | ok s =>
          cases htc : float_range (1/10) 1 Tc with
          | error e =>
            exact ⟨e, by rw [generate_parse_args, hsv, htc]⟩
          | ok t =>
            exact ⟨_, by rw [generate_parse_args, hsv, htc, int_range_error_out h]⟩
      · cases hsv : float_range (1/100) 10000 sv with
        | error e =>
          exact ⟨e, by rw [generate_parse_args, hsv]⟩
        | ok s =>
          exact ⟨_, by rw [generate_parse_args, hsv, float_range_error_out h]⟩
      · exact ⟨_, by rw [generate_parse_args, float_range_error_out h]⟩
    rcases hp with ⟨msg, hmsg⟩
    exact ⟨msg, by rw [generate_CTA_run, hmsg], by decide⟩
  · have hp2 : predict_targets_run nBitsP =
        Except.error (2, "value out of range [" ++ toString (8 : Int) ++ ", " ++
          toString (2048 : Int) ++ "]") := by
      rw [predict_targets_run, predict_parse_args, int_range_error_out hP]
    exact ⟨_, hp2, by decide⟩

/-- C8 witness: the rejection of concrete out-of-range requests —
generate_CTA with nBits = 4096 (in-range sv = 1, Tc = 1/2) and
predict_targets with nBits = 4. -/
theorem config_out_of_range_rejected_witness :
    (∃ msg, generate_CTA_run 1 (1/2) 4096 = Except.error (2, msg) ∧ (2 : Nat) ≠ 0) ∧
    (∃ msg, predict_targets_run 4 = Except.error (2, msg) ∧ (2 : Nat) ≠ 0) :=
  config_out_of_range_rejected 1 (1/2) 4096 4
    (Or.inl (Or.inr (by norm_num))) (Or.inl (by norm_num))

/-- C7: in the dataset-update script, initialize_CTA_files runs exactly
when the metadata file CTA_meta.parquet is absent from the refined output
directory; when the metadata exists the CTA files are not re-initialized. -/
theorem init_only_when_meta_absent (a : UpdateArgs) (metaExists : Bool) :
    UpdateAction.initCTA ∈ (update_main a metaExists).1 ↔ metaExists = false := by
  cases metaExists <;>
    cases a <;>
    simp only [update_main] <;>
    split_ifs <;>
    simp_all [getattr, parsed_fields]

/-- C10: for every invocation of the dataset-update script with the
--NPs flag and an --NPs_data path, the args.verbose lookup raises an
AttributeError (the parser defines no verbose option) before
refine_NPs_data can run, so the NPs refinement never happens. -/
theorem nps_branch_attribute_error (cd : Option String) (p dest : String)
    (chembl metaExists : Bool) :
    UpdateAction.refineNPs ∉
      (update_main ⟨cd, some p, chembl, true, dest⟩ metaExists).1 ∧
    (update_main ⟨cd, some p, chembl, true, dest⟩ metaExists).2 =
      some ("AttributeError: no attribute " ++ "verbose") := by
  cases metaExists <;> cases chembl <;> cases cd <;>
    simp [update_main, getattr, parsed_fields]

end CTAPred
